import Mathlib

/-!
Shallow embedding of src/MvvmExample.cpp: an MVVM wiring example connecting
an EQ filter model, view-models and views through observable properties.

The repository code proper (EqFilterViewModel, EqFilterComponent, EqFilter,
MagnitudeResponsePlotViewModel, PlotComponent, wiring, and the unit test) is
embedded from the source. The external collaborators (the observable-property
library, the JUCE slider, dsp::MagnitudeResponse, juce::Path,
juce::Rectangle) are not under src/; their contracts are modelled from the
specification, and each such definition is marked accordingly.

Doubles are modelled as rationals: the program only stores and forwards
cutoff-frequency and slider values, it performs no floating-point arithmetic
on them.
-/

namespace Mvvm

/-- Modelled from the spec: dsp::MagnitudeResponse (header dsp/MagnitudeResponse.hpp
is absent from the repository), "an opaque value type representing
frequency/gain pairs, treated as a black box". Default construction yields a
response with no data points. -/
structure MagnitudeResponse where
  points : List (ℚ × ℚ) := []
deriving DecidableEq, Repr

/-- Modelled from the spec: juce::Rectangle over int, used for plot bounds.
Default construction yields the zero rectangle. -/
structure Rectangle where
  x : Int := 0
  y : Int := 0
  width : Int := 0
  height : Int := 0
deriving DecidableEq, Repr

/-- Modelled from the spec: juce::Path, the opaque plot-path value type.
Default construction yields an empty path. -/
structure Path where
  segments : List (ℚ × ℚ) := []
deriving DecidableEq, Repr

/-- Modelled from the spec: the external observable-property library
(ObservableProperty, MutableObservableProperty, LIVE_OBSERVABLE_PROPERTY).
A reactive cell holding a current value of type T together with the list of
subscribed callbacks. A callback acts on an observer-context state of type σ
(the state of whatever object subscribed). Each subscriber carries the
numeric token handed out by observe, so that a ScopedConnection can remove
exactly that subscription later. -/
structure ObservableProperty (T : Type) (σ : Type) where
  value : T
  subscribers : List (Nat × (T → σ → σ)) := []
  nextId : Nat := 0

namespace ObservableProperty

variable {T σ : Type}

/-- Modelled from the spec: observe(callback) registers a callback invoked
with the new value on every change, returning a scope-bound subscription
token. -/
def observe (o : ObservableProperty T σ) (cb : T → σ → σ) :
    ObservableProperty T σ × Nat :=
  ({ o with subscribers := o.subscribers ++ [(o.nextId, cb)],
            nextId := o.nextId + 1 },
   o.nextId)

/-- Modelled from the spec: setValueForced(T) sets the value and
unconditionally notifies all subscribers, each exactly once, in order. -/
def setValueForced (o : ObservableProperty T σ) (v : T) (env : σ) :
    ObservableProperty T σ × σ :=
  ({ o with value := v },
   o.subscribers.foldl (fun e p => p.2 v e) env)

/-- Modelled from the spec: destroying a ScopedConnection unsubscribes the
subscription it holds, identified by its token. -/
def disconnect (o : ObservableProperty T σ) (id : Nat) :
    ObservableProperty T σ :=
  { o with subscribers := o.subscribers.filter (fun p => p.1 ≠ id) }

/-- The tokens of the subscribers a single change notification reaches. -/
def notifiedIds (o : ObservableProperty T σ) : List Nat :=
  o.subscribers.map Prod.fst

/-- The tokens notified over a whole sequence of subsequent forced-set
changes, one batch per change, starting from observable o and observer
context env. -/
def notifySequence (o : ObservableProperty T σ) (env : σ) :
    List T → List Nat
  | [] => []
  | v :: vs =>
    let next := o.setValueForced v env
    o.notifiedIds ++ next.1.notifySequence next.2 vs

end ObservableProperty

/-- EqFilterViewModel (source lines 21 to 39): holds the live observable
frequencySliderValue and the injected cutoff-frequency-changed use case.
The observer context σ is the state the injected callback and the observable
subscribers act on. -/
structure EqFilterViewModel (σ : Type) where
  frequencySliderValue : ObservableProperty ℚ σ
  cutoffFrequencyChanged : ℚ → σ → σ

namespace EqFilterViewModel

variable {σ : Type}

/-- Constructor (source lines 26 to 29): stores the injected callback and
constructs the slider-value observable holding 100.0, with no subscribers
yet. -/
def construct (onCutoffFrequencyChanged : ℚ → σ → σ) : EqFilterViewModel σ :=
  { frequencySliderValue := { value := 100 },
    cutoffFrequencyChanged := onCutoffFrequencyChanged }

/-- onCutoffFrequencyChanged (source lines 33 to 35): forwards newValue to
the injected callback; the view-model state itself is returned unchanged. -/
def onCutoffFrequencyChanged (vm : EqFilterViewModel σ) (newValue : ℚ)
    (env : σ) : EqFilterViewModel σ × σ :=
  (vm, vm.cutoffFrequencyChanged newValue env)

end EqFilterViewModel

/-- EqFilter.calculateMagnitudeResponse (source lines 85 to 89): the DSP
computation is stubbed in the source (a default-constructed result with a
magic comment in place of real mathematics), so the function returns the
default response for every cutoff frequency. The cutoff argument records
that the source computes the response as a const member of the filter state. -/
def EqFilter.calculateMagnitudeResponse (_cutoffFrequency : ℚ) :
    MagnitudeResponse :=
  {}

/-- EqFilter, the model (source lines 75 to 92): current cutoff frequency,
defaulted to 100.0 in the source, and the observable magnitude response.
The observer context σ is the state of whatever subscribes downstream. -/
structure EqFilter (σ : Type) where
  cutoffFrequency : ℚ := 100
  magnitudeResponse : ObservableProperty MagnitudeResponse σ := { value := {} }

/-- EqFilter.onCutoffFrequencyChanged (source lines 79 to 82): stores the new
cutoff frequency, then force-publishes the freshly computed magnitude
response, which notifies every subscriber of the magnitude-response
observable. Returns the updated filter and observer context. -/
def EqFilter.onCutoffFrequencyChanged {σ : Type} (f : EqFilter σ)
    (newCutoffFrequency : ℚ) (env : σ) : EqFilter σ × σ :=
  let f1 : EqFilter σ := { f with cutoffFrequency := newCutoffFrequency }
  let step := f1.magnitudeResponse.setValueForced
    (EqFilter.calculateMagnitudeResponse f1.cutoffFrequency) env
  ({ f1 with magnitudeResponse := step.1 }, step.2)

/-- MagnitudeResponsePlotViewModel state (source lines 95 to 126): cached
plot bounds (default-constructed rectangle), cached magnitude response, and
the live plot observable, modelled by its current value plotValue together
with plotNotifications, the number of forced-set notifications it has issued
to its own subscribers so far (each updatePlot call issues exactly one). -/
structure MagnitudeResponsePlotViewModel where
  plotBounds : Rectangle := {}
  magnitudeResponse : MagnitudeResponse := {}
  plotValue : Path := {}
  plotNotifications : Nat := 0
deriving DecidableEq, Repr

namespace MagnitudeResponsePlotViewModel

/-- calculateMagnitudeResponsePlot (source lines 117 to 121): the plot
computation is stubbed in the source (a default-constructed path with a
magic comment in place of real rendering), so it returns the empty path for
every input. The arguments record that the source computes the plot as a
const member of (cached response, cached bounds). -/
def calculateMagnitudeResponsePlot (_magnitudeResponse : MagnitudeResponse)
    (_plotBounds : Rectangle) : Path :=
  {}

/-- updatePlot (source line 115): force-sets the plot observable to the
recomputed plot path, notifying plot subscribers once. -/
def updatePlot (vm : MagnitudeResponsePlotViewModel) :
    MagnitudeResponsePlotViewModel :=
  { vm with
    plotValue := calculateMagnitudeResponsePlot vm.magnitudeResponse vm.plotBounds,
    plotNotifications := vm.plotNotifications + 1 }

/-- The subscription callback from the constructor (source lines 100 to 104):
on each emission of the source observable, caches the new response and
recomputes the plot. -/
def onResponseEmitted (newResponse : MagnitudeResponse)
    (vm : MagnitudeResponsePlotViewModel) : MagnitudeResponsePlotViewModel :=
  updatePlot { vm with magnitudeResponse := newResponse }

/-- Constructor (source lines 97 to 105): copies the current value of the
source magnitude-response observable into the cache, subscribes
onResponseEmitted to the source, and leaves bounds and the plot observable
default-constructed. Returns the fresh view-model and the source observable
with the subscription added. -/
def construct
    (magnitudeResponse : ObservableProperty MagnitudeResponse MagnitudeResponsePlotViewModel) :
    MagnitudeResponsePlotViewModel ×
      ObservableProperty MagnitudeResponse MagnitudeResponsePlotViewModel :=
  ({ plotBounds := {}
     magnitudeResponse := magnitudeResponse.value
     plotValue := {}
     plotNotifications := 0 },
   (magnitudeResponse.observe (fun r vm => onResponseEmitted r vm)).1)

/-- onPlotBoundsChanged (source lines 109 to 112): caches the new bounds and
recomputes the plot. -/
def onPlotBoundsChanged (vm : MagnitudeResponsePlotViewModel)
    (newBounds : Rectangle) : MagnitudeResponsePlotViewModel :=
  updatePlot { vm with plotBounds := newBounds }

end MagnitudeResponsePlotViewModel

/-- The observer context in which EqFilterComponent operates: the current
value shown by the JUCE frequency slider, and the list of arguments with
which the injected cutoff-frequency-changed use case has been invoked so
far. Recording the invocations makes "the callback is never called" a
provable statement about the model. -/
structure EqView where
  sliderValue : ℚ := 0
  cutoffCalls : List ℚ := []
deriving DecidableEq, Repr

namespace EqFilterComponent

/-- Modelled from the spec: the JUCE slider contract used by the component.
Setting the slider value with juce::dontSendNotification updates the shown
value without invoking the sliders value-change callback, so the recorded
cutoff calls are untouched. -/
def sliderSetValueNoNotify (newValue : ℚ) (e : EqView) : EqView :=
  { e with sliderValue := newValue }

/-- The subscription callback from the constructor (source lines 55 to 58):
pushes each value emitted by the view-model observable into the slider with
juce::dontSendNotification. -/
def sliderSyncCallback (newValue : ℚ) (e : EqView) : EqView :=
  sliderSetValueNoNotify newValue e

/-- EqFilterComponent constructor (source lines 43 to 61): configures the
slider, sets its value from the current view-model observable value with
juce::dontSendNotification, installs the user-interaction handler (modelled
by userMovesSlider below), and subscribes sliderSyncCallback to the
view-model observable, keeping the ScopedConnection. Returns the view-model
with the subscription added, the resulting view state, and the subscription
token held by the component. -/
def construct (viewModel : EqFilterViewModel EqView) (env : EqView) :
    EqFilterViewModel EqView × EqView × Nat :=
  let env1 := sliderSetValueNoNotify viewModel.frequencySliderValue.value env
  let sub := viewModel.frequencySliderValue.observe sliderSyncCallback
  ({ viewModel with frequencySliderValue := sub.1 }, env1, sub.2)

/-- The user-interaction path (source lines 51 to 53): a user change stores
the new value in the slider and fires onValueChange, which forwards the
current slider value to the view-models onCutoffFrequencyChanged. -/
def userMovesSlider (viewModel : EqFilterViewModel EqView) (newValue : ℚ)
    (env : EqView) : EqView :=
  let env1 : EqView := { env with sliderValue := newValue }
  (viewModel.onCutoffFrequencyChanged env1.sliderValue env1).2

end EqFilterComponent

/-- The model-side wiring from wiring() (source lines 155 to 165): a default
EqFilter whose magnitude-response observable gets exactly one subscriber,
the MagnitudeResponsePlotViewModel created for the PlotComponent. Returns
the wired filter and the fresh plot view-model. -/
def wiring : EqFilter MagnitudeResponsePlotViewModel × MagnitudeResponsePlotViewModel :=
  let filter : EqFilter MagnitudeResponsePlotViewModel := {}
  let made := MagnitudeResponsePlotViewModel.construct filter.magnitudeResponse
  ({ filter with magnitudeResponse := made.2 }, made.1)

/-- The source observable of the unit test (source lines 170 to 171): a
MutableObservableProperty holding a default-constructed magnitude response
with no data points. -/
def testMagnitudeResponse :
    ObservableProperty MagnitudeResponse MagnitudeResponsePlotViewModel :=
  { value := {} }

/-- Auxiliary: once a token is absent from the notified tokens of an
observable, no sequence of subsequent forced-set changes ever notifies it,
because setValueForced leaves the subscriber list unchanged. -/
theorem ObservableProperty.notifySequence_not_mem {T σ : Type} (id : Nat) :
    ∀ (o : ObservableProperty T σ) (env : σ) (vs : List T),
      id ∉ o.notifiedIds → id ∉ o.notifySequence env vs := by
  intro o env vs
  induction vs generalizing o env with
  | nil =>
    intro _
    simp [ObservableProperty.notifySequence]
  | cons v vs ih =>
    intro h
    simp only [ObservableProperty.notifySequence, List.mem_append]
    refine not_or.mpr ⟨h, ih _ _ ?_⟩
    simpa [ObservableProperty.setValueForced, ObservableProperty.notifiedIds]
      using h

/-- Claim C1: onPlotBoundsChanged(rect) stores rect as the cached bounds,
leaves the cached response untouched, and publishes exactly the plot path
computed by the pure total function calculateMagnitudeResponsePlot applied
to (cached response, rect); same inputs therefore always yield the same
plot. -/
theorem claim_C1_plot_bounds_change_recomputes_pure
    (vm : MagnitudeResponsePlotViewModel) (rect : Rectangle) :
    (vm.onPlotBoundsChanged rect).plotBounds = rect ∧
    (vm.onPlotBoundsChanged rect).magnitudeResponse = vm.magnitudeResponse ∧
    (vm.onPlotBoundsChanged rect).plotValue =
      MagnitudeResponsePlotViewModel.calculateMagnitudeResponsePlot
        vm.magnitudeResponse rect :=
  ⟨rfl, rfl, rfl⟩

/-- Claim C2: with the plot view-model subscribed to the filters
magnitude-response observable as its only subscriber, as set up by wiring(),
a call to EqFilter.onCutoffFrequencyChanged performs exactly one plot
recomputation downstream: the plot observable issues exactly one more
notification than before. -/
theorem claim_C2_cutoff_change_exactly_one_plot_recompute
    (f : EqFilter MagnitudeResponsePlotViewModel)
    (vm : MagnitudeResponsePlotViewModel) (i : Nat) (newF : ℚ)
    (hsub : f.magnitudeResponse.subscribers =
      [(i, fun r v => MagnitudeResponsePlotViewModel.onResponseEmitted r v)]) :
    ((f.onCutoffFrequencyChanged newF vm).2).plotNotifications =
      vm.plotNotifications + 1 := by
  simp [EqFilter.onCutoffFrequencyChanged, ObservableProperty.setValueForced,
    hsub, MagnitudeResponsePlotViewModel.onResponseEmitted,
    MagnitudeResponsePlotViewModel.updatePlot]

/-- Witness for claim C2: in the concrete wiring() configuration, changing
the cutoff frequency to 440 bumps the plot notification count by exactly
one. -/
theorem claim_C2_witness :
    ((wiring.1.onCutoffFrequencyChanged 440 wiring.2).2).plotNotifications =
      wiring.2.plotNotifications + 1 :=
  claim_C2_cutoff_change_exactly_one_plot_recompute wiring.1 wiring.2 0 440 rfl

/-- Claim C3: in the unit-test scenario, a plot view-model constructed over
an observable holding an empty magnitude response, after
onPlotBoundsChanged on the rectangle (0, 0, 100, 100), exposes exactly the
plot computed by the stub computation on (empty response, that rectangle). -/
theorem claim_C3_test_empty_response_bounds_plot :
    ((MagnitudeResponsePlotViewModel.construct
          testMagnitudeResponse).1.onPlotBoundsChanged
        ⟨0, 0, 100, 100⟩).plotValue =
      MagnitudeResponsePlotViewModel.calculateMagnitudeResponsePlot {}
        ⟨0, 0, 100, 100⟩ :=
  rfl

/-- Claim C4: EqFilter.onCutoffFrequencyChanged(f) stores f as the current
cutoff frequency, sets the magnitude-response observable to the value the
opaque calculation yields for f, keeps the subscriber list intact, and
force-publishes that new response to all observers in order, all within the
single call. -/
theorem claim_C4_cutoff_change_stores_recomputes_publishes {σ : Type}
    (f : EqFilter σ) (newF : ℚ) (env : σ) :
    ((f.onCutoffFrequencyChanged newF env).1).cutoffFrequency = newF ∧
    ((f.onCutoffFrequencyChanged newF env).1).magnitudeResponse.value =
      EqFilter.calculateMagnitudeResponse newF ∧
    ((f.onCutoffFrequencyChanged newF env).1).magnitudeResponse.subscribers =
      f.magnitudeResponse.subscribers ∧
    (f.onCutoffFrequencyChanged newF env).2 =
      f.magnitudeResponse.subscribers.foldl
        (fun e p => p.2 (EqFilter.calculateMagnitudeResponse newF) e) env :=
  ⟨rfl, rfl, rfl, rfl⟩

/-- Claim C5: EqFilterViewModel.onCutoffFrequencyChanged(v) invokes the
injected callback exactly once with argument v, and the view-model itself,
its frequencySliderValue observable included, comes back unchanged: no
other state is modified. -/
theorem claim_C5_viewmodel_forwards_callback_once_frame {σ : Type}
    (vm : EqFilterViewModel σ) (v : ℚ) (env : σ) :
    ((vm.onCutoffFrequencyChanged v env).1).frequencySliderValue =
      vm.frequencySliderValue ∧
    (vm.onCutoffFrequencyChanged v env).1 = vm ∧
    (vm.onCutoffFrequencyChanged v env).2 = vm.cutoffFrequencyChanged v env :=
  ⟨rfl, rfl, rfl⟩

/-- Claim C6: setting the view-models frequencySliderValue observable to v
and reading it back yields v. -/
theorem claim_C6_slider_value_roundtrip {σ : Type}
    (vm : EqFilterViewModel σ) (v : ℚ) (env : σ) :
    ((vm.frequencySliderValue.setValueForced v env).1).value = v :=
  rfl

/-- Claim C7: a freshly constructed EqFilterViewModel exposes 100.0 as the
current value of its frequencySliderValue observable, whatever callback was
injected. -/
theorem claim_C7_fresh_viewmodel_slider_is_100 {σ : Type}
    (cb : ℚ → σ → σ) :
    (EqFilterViewModel.construct cb).frequencySliderValue.value = 100 :=
  rfl

/-- Claim C8: for every subscription made through observe, once its
ScopedConnection is released, no subsequent sequence of changes of the
source observable ever notifies that subscription again. -/
theorem claim_C8_no_notification_after_disconnect {T σ : Type}
    (o : ObservableProperty T σ) (cb : T → σ → σ) (env : σ) (vs : List T) :
    (o.observe cb).2 ∉
      ((o.observe cb).1.disconnect (o.observe cb).2).notifySequence env vs := by
  apply ObservableProperty.notifySequence_not_mem
  simp [ObservableProperty.observe, ObservableProperty.disconnect,
    ObservableProperty.notifiedIds, List.mem_map, List.mem_filter]

/-- Claim C9: constructing a MagnitudeResponsePlotViewModel copies the
source observables current response into the cache but computes no plot:
right after construction the plot observable still holds the
default-constructed empty path and has issued no notification. -/
theorem claim_C9_construction_copies_cache_no_plot
    (source : ObservableProperty MagnitudeResponse MagnitudeResponsePlotViewModel) :
    ((MagnitudeResponsePlotViewModel.construct source).1).magnitudeResponse =
      source.value ∧
    ((MagnitudeResponsePlotViewModel.construct source).1).plotValue =
      ({} : Path) ∧
    ((MagnitudeResponsePlotViewModel.construct source).1).plotNotifications =
      0 :=
  ⟨rfl, rfl, rfl⟩

/-- Claim C10: constructing an EqFilterComponent invokes the injected
cutoff-frequency callback zero times and merely initializes the slider from
the observables current value; values later pushed from the observable into
the slider update the slider without invoking the callback; only the
user-interaction path reaches the callback, with the slider value as
argument. -/
theorem claim_C10_construction_never_invokes_callback
    (vm : EqFilterViewModel EqView) (env : EqView)
    (cb : ℚ → EqView → EqView) (v : ℚ) (e : EqView) :
    ((EqFilterComponent.construct vm env).2.1).cutoffCalls = env.cutoffCalls ∧
    ((EqFilterComponent.construct vm env).2.1).sliderValue =
      vm.frequencySliderValue.value ∧
    (((EqFilterComponent.construct (EqFilterViewModel.construct cb)
            env).1).frequencySliderValue.setValueForced v e).2 =
      { e with sliderValue := v } ∧
    EqFilterComponent.userMovesSlider (EqFilterViewModel.construct cb) v e =
      cb v { e with sliderValue := v } :=
  ⟨rfl, rfl, rfl, rfl⟩

end Mvvm
